import Mathlib

/-!
Shallow embedding of the three clinical-quality-measure protocols of the
repository (src/protocols/FollowupOverdue.py, SpecialTasks.py,
PostmenopausalHormoneTherapy.py), together with theorems settling the
frozen claims about them.

Timestamps are modelled as integers (seconds); `arrow` instants and
`datetime.timedelta` durations both become `Int`.  The module-level
constant `NOW` becomes an explicit `now : Int` argument.  Host-framework
record sets become plain lists; the host collaborators that the repository
calls but does not contain (record-set `after`, `ProtocolResult`) are
modelled from the spec and marked as such in their doc comments.
-/

namespace Collective

/-- One second, the unit of time in this model. -/
def daySeconds : Int := 86400

/-- Python `SIX_MONTHS_WINDOW = timedelta(days=198)` (FollowupOverdue.py line 33). -/
def SIX_MONTHS_WINDOW : Int := 198 * daySeconds

/-- Python `TWO_MONTH_WINDOW = timedelta(days=66)` (FollowupOverdue.py line 34). -/
def TWO_MONTH_WINDOW : Int := 66 * daySeconds

/-- Python `NEXT_MONTH_WINDOW = timedelta(days=33)` (FollowupOverdue.py line 35). -/
def NEXT_MONTH_WINDOW : Int := 33 * daySeconds

/-- Seven days, the `NOW.shift(weeks=-1)` offset used by `in_numerator`. -/
def weekSeconds : Int := 7 * daySeconds

/-- Python `LONG_TIME_AGO = NOW.shift(years=-10)` (line 37), modelled as a fixed
offset of 3650 days; only its being far in the past matters. -/
def tenYearsSeconds : Int := 3650 * daySeconds

/-- Python `DEFAULT_RISK = 'Low'` (FollowupOverdue.py line 40). -/
def DEFAULT_RISK : String := "Low"

/-- The keys of the `RISK_WINDOWS` dictionary (lines 43-48). -/
def RISK_WINDOW_KEYS : List String := ["Low", "Medium", "High Risk", "High Risk - Unstable"]

/-- Python `RISK_WINDOWS.get(level, fallback)` (lines 43-48): the fixed
risk-level-to-duration table with an explicit fallback value. -/
def riskWindowsGet (level : String) (fallback : Int) : Int :=
  if level = "Low" then SIX_MONTHS_WINDOW
  else if level = "Medium" then SIX_MONTHS_WINDOW
  else if level = "High Risk" then TWO_MONTH_WINDOW
  else if level = "High Risk - Unstable" then NEXT_MONTH_WINDOW
  else fallback

/-- Python `PHONE_CALL_DISPOSITION_QUESTIONNAIRE_ID` (line 25). -/
def PHONE_CALL_DISPOSITION_QUESTIONNAIRE_ID : String := "QUES_PHONE_01"

/-- Python `RISK_STRATIFICATION_QUESTIONNAIRE_ID` (line 26). -/
def RISK_STRATIFICATION_QUESTIONNAIRE_ID : String := "DUO_QUES_RISK_STRAT_01"

/-- Python `RISK_STRATIFICATION_QUESTION_ID` (line 27). -/
def RISK_STRATIFICATION_QUESTION_ID : String := "DUO_QUES_RISK_STRAT_02"

/-- The `PhoneResponses` enumeration (FollowupOverdue.py lines 51-59). -/
inductive PhoneResponses where
  | REACHED
  | REACHED_NOT_INTERESTED
  | NO_ANSWER_MESSAGE
  | NO_ANSWER_NO_MESSAGE
  | CALL_BACK_REQUESTED
  | CALL_TO_PATIENT
  | CALL_TO_OTHER
  | FREE_TEXT
  deriving DecidableEq, Repr

/-- Python `PhoneResponses(code)`: the enum constructor lookup by value.  Python
raises `ValueError` on an unknown code; here that is `none`. -/
def phoneResponsesOfCode (code : String) : Option PhoneResponses :=
  if code = "QUES_PHONE_03" then some .REACHED
  else if code = "QUES_PHONE_04" then some .REACHED_NOT_INTERESTED
  else if code = "QUES_PHONE_05" then some .NO_ANSWER_MESSAGE
  else if code = "QUES_PHONE_06" then some .NO_ANSWER_NO_MESSAGE
  else if code = "QUES_PHONE_08" then some .CALL_BACK_REQUESTED
  else if code = "QUES_PHONE_10" then some .CALL_TO_PATIENT
  else if code = "QUES_PHONE_11" then some .CALL_TO_OTHER
  else if code = "QUES_PHONE_16" then some .FREE_TEXT
  else none

/-- Python `PhoneCallDispositionQuestionnaire.INTERNAL` (lines 68-70). -/
def PhoneCallDispositionQuestionnaire : List String :=
  [PHONE_CALL_DISPOSITION_QUESTIONNAIRE_ID]

/-- Python `RiskStratificationQuestionnaire.INTERNAL` (lines 73-75). -/
def RiskStratificationQuestionnaire : List String :=
  [RISK_STRATIFICATION_QUESTIONNAIRE_ID]

/-- One entry of an interview's `responses` list: a coded answer. -/
structure Response where
  code : String
  value : String
  deriving DecidableEq, Repr

/-- A patient interview record: the questionnaire it instantiates, its
status code, its note timestamp and its responses. -/
structure Interview where
  questionnaireId : String
  status : String
  noteTimestamp : Int
  responses : List Response
  deriving DecidableEq, Repr

/-- One entry of a message's `sender` list. -/
structure Sender where
  type : String
  deriving DecidableEq, Repr

/-- A message record: its senders and creation timestamp. -/
structure Message where
  sender : List Sender
  created : Int
  deriving DecidableEq, Repr

/-- One entry of an appointment's `stateHistory`. -/
structure StateEvent where
  state : String
  created : Int
  deriving DecidableEq, Repr

/-- A (past) appointment record with its state history. -/
structure Appointment where
  stateHistory : List StateEvent
  deriving DecidableEq, Repr

/-- An upcoming appointment record with its status and start time. -/
structure UpcomingAppointment where
  status : String
  startTime : Int
  deriving DecidableEq, Repr

/-- A task record: status, labels and due timestamp (SpecialTasks.py). -/
structure Task where
  status : String
  labels : List String
  due : Int
  deriving DecidableEq, Repr

/-- A condition record carrying its diagnosis codes
(PostmenopausalHormoneTherapy.py). -/
structure Condition where
  codes : List String
  deriving DecidableEq, Repr

/-- A medication record carrying its codes. -/
structure Medication where
  codes : List String
  deriving DecidableEq, Repr

/-- The patient snapshot: the host-provided read-only collections the three
protocols inspect. -/
structure Patient where
  interviews : List Interview
  messages : List Message
  appointments : List Appointment
  upcoming_appointments : List UpcomingAppointment
  tasks : List Task
  conditions : List Condition
  medications : List Medication
  deriving DecidableEq, Repr

/-- A recommendation attached to a protocol result
(PostmenopausalHormoneTherapy.py `PrescribeRecommendation`). -/
structure Recommendation where
  key : String
  rank : Nat
  button : String
  prescription : List String
  title : String
  deriving DecidableEq, Repr

/-- Modelled from the spec: the default status a fresh `ProtocolResult`
carries.  `ProtocolResult` belongs to the host framework (not under src/);
the spec describes results as created fresh per evaluation with the three
outcome statuses `due`, `satisfied`, `not_applicable` assigned by the
protocol, so the initial status is modelled as a marker value distinct
from all three. -/
def STATUS_UNSET : String := "unset"

/-- Python `STATUS_DUE` of the host framework; the spec calls this outcome `due`. -/
def STATUS_DUE : String := "due"

/-- Python `STATUS_SATISFIED`; the spec calls this outcome `satisfied`. -/
def STATUS_SATISFIED : String := "satisfied"

/-- Python `STATUS_NOT_APPLICABLE`; the spec calls this outcome `not_applicable`. -/
def STATUS_NOT_APPLICABLE : String := "not_applicable"

/-- Modelled from the spec: the host framework's `ProtocolResult`
(not under src/) — a status, an urgency indicator (`due_in`), and zero or
more narrative strings / recommendations, created fresh per evaluation. -/
structure ProtocolResult where
  status : String := STATUS_UNSET
  due_in : Option Int := none
  narratives : List String := []
  recommendations : List Recommendation := []
  deriving DecidableEq, Repr

namespace FollowupOverdue

/-- Python `patient.interviews.find(valueSet)`: the interviews whose questionnaire
identifier belongs to the value set's codes. -/
def findInterviews (p : Patient) (vs : List String) : List Interview :=
  p.interviews.filter (fun i => decide (i.questionnaireId ∈ vs))

/-- Python `FollowupOverdue._get_risk_stratification` (lines 89-119) called with
its default `latest_date = LONG_TIME_AGO`: the value of the most recent
risk-stratification questionnaire's answer to the risk question, or
`DEFAULT_RISK` when there is none (or it is older than ten years). -/
def get_risk_stratification (now : Int) (p : Patient) : String :=
  match (findInterviews p RiskStratificationQuestionnaire).getLast? with
  | some q =>
      if q.noteTimestamp > now - tenYearsSeconds then
        match q.responses.find? (fun r => r.code == RISK_STRATIFICATION_QUESTION_ID) with
        | some r => r.value
        | none => DEFAULT_RISK
      else DEFAULT_RISK
  | none => DEFAULT_RISK

/-- Python `FollowupOverdue._get_risk_stratification_period` (lines 121-131):
`RISK_WINDOWS.get(level, SIX_MONTHS_WINDOW)`. -/
def get_risk_stratification_period (now : Int) (p : Patient) : Int :=
  riskWindowsGet (get_risk_stratification now p) SIX_MONTHS_WINDOW

/-- Python `FollowupOverdue._is_before_risk_period` (lines 145-155):
`date < NOW + period`. -/
def is_before_risk_period (now : Int) (p : Patient) (date : Int) : Bool :=
  date < now + get_risk_stratification_period now p

/-- The generator `any(PhoneResponses(response.code) == CALL_TO_PATIENT ...)`
inside `_get_phone_calls_to_patient` (lines 170-173): scans the responses in
order, raising (`Except.error`) at the first code outside the enumeration,
stopping with `true` at the first `CALL_TO_PATIENT` code. -/
def anyCallToPatient : List Response → Except Unit Bool
  | [] => .ok false
  | r :: rest =>
      match phoneResponsesOfCode r.code with
      | none => .error ()
      | some pr =>
          if pr = PhoneResponses.CALL_TO_PATIENT then .ok true
          else anyCallToPatient rest

/-- The claim-side scan predicate: reading a response list in order, a code
outside the `PhoneResponses` enumeration is reached before any
`CALL_TO_PATIENT` code (at which the `any` generator stops).  This is
exactly when `anyCallToPatient` faults. -/
def hitsInvalidBeforeCall : List Response → Bool
  | [] => false
  | r :: rest =>
      match phoneResponsesOfCode r.code with
      | none => true
      | some pr =>
          if pr = PhoneResponses.CALL_TO_PATIENT then false
          else hitsInvalidBeforeCall rest

/-- The list comprehension of `_get_phone_calls_to_patient` (lines 166-175):
keeps the interviews whose responses contain a `CALL_TO_PATIENT` code,
propagating the `ValueError` of an unknown code. -/
def filterCallsToPatient : List Interview → Except Unit (List Interview)
  | [] => .ok []
  | i :: rest => do
      let b ← anyCallToPatient i.responses
      let tail ← filterCallsToPatient rest
      if b then return i :: tail else return tail

/-- Python `FollowupOverdue._get_phone_calls_to_patient` (lines 157-175): completed
(`status='AC'`) phone-call-disposition interviews directed to the patient. -/
def get_phone_calls_to_patient (p : Patient) : Except Unit (List Interview) :=
  filterCallsToPatient
    ((findInterviews p PhoneCallDispositionQuestionnaire).filter (fun i => i.status == "AC"))

/-- Modelled from the spec: the host record-set method `after` on interview
record sets (not under src/).  The spec states the numerator is true iff a
patient-directed completed call exists with timestamp greater than or equal
to now minus 7 days, so `after t` keeps the records whose timestamp is
greater than or equal to `t`. -/
def interviewsAfter (t : Int) (l : List Interview) : List Interview :=
  l.filter (fun i => decide (t ≤ i.noteTimestamp))

/-- Python `FollowupOverdue._get_messages_to_patient_after` (lines 177-197):
staff-sent messages created strictly after `start`. -/
def get_messages_to_patient_after (p : Patient) (start : Int) : List Message :=
  p.messages.filter
    (fun m => m.sender.any (fun s => s.type == "Staff") && decide (start < m.created))

/-- Python `FollowupOverdue._get_past_appointments` (lines 199-214): appointments
whose state history contains a check-in (state `CVD`). -/
def get_past_appointments (p : Patient) : List Appointment :=
  p.appointments.filter (fun a => a.stateHistory.any (fun s => s.state == "CVD"))

/-- Python `FollowupOverdue._get_most_recent_appointment` (lines 216-234): the
maximum `created` timestamp over the `CVD` state events of the past
appointments, `none` when there are none. -/
def get_most_recent_appointment (p : Patient) : Option Int :=
  ((((get_past_appointments p).flatMap (fun a => a.stateHistory)).filter
      (fun s => s.state == "CVD")).map (fun s => s.created)).max?

/-- Python `FollowupOverdue._get_upcoming_appointments` (lines 236-249): the
upcoming appointments whose status is not `cancelled`.  (Defined by the
source but never called by `in_denominator`.) -/
def get_upcoming_appointments (p : Patient) : List UpcomingAppointment :=
  p.upcoming_appointments.filter (fun a => a.status != "cancelled")

/-- The `no_follow_up_appointment` condition of `in_denominator`
(lines 260-267): vacuously true with no upcoming appointments, otherwise
true iff no upcoming appointment (of `patient.upcoming_appointments`,
cancelled ones included) starts before `NOW` plus the risk window. -/
def no_follow_up_appointment (now : Int) (p : Patient) : Bool :=
  if p.upcoming_appointments.isEmpty then true
  else !(p.upcoming_appointments.any (fun a => is_before_risk_period now p a.startTime))

/-- The `no_recent_contact` condition of `in_denominator` (lines 268-279):
with no most recent checked-in appointment both contact record sets are the
constant `False`, so the condition is true; otherwise it is the negation of
"some staff message strictly after it, or (the patient-directed calls are
nonempty and some of them is at-or-after it)".  The phone-call record set is
only computed when a most recent appointment exists, reproducing the Python
short-circuit `most_recent_appointment_time and self._get_phone_calls_to_patient()`. -/
def no_recent_contact (p : Patient) : Except Unit Bool :=
  match get_most_recent_appointment p with
  | none => .ok true
  | some t => do
      let msgs := get_messages_to_patient_after p t
      let calls ← get_phone_calls_to_patient p
      let callsAfter : Bool :=
        if calls.isEmpty then false else !(interviewsAfter t calls).isEmpty
      return !(!msgs.isEmpty || callsAfter)

/-- Python `FollowupOverdue.in_denominator` (lines 251-280). -/
def in_denominator (now : Int) (p : Patient) : Except Unit Bool := do
  let nrc ← no_recent_contact p
  return no_follow_up_appointment now p && nrc

/-- Python `FollowupOverdue.in_numerator` (lines 282-288): a patient-directed call
exists after `NOW.shift(weeks=-1)`. -/
def in_numerator (now : Int) (p : Patient) : Except Unit Bool := do
  let calls ← get_phone_calls_to_patient p
  return !(interviewsAfter (now - weekSeconds) calls).isEmpty

/-- Python `FollowupOverdue.compute_results` (lines 290-309). -/
def compute_results (now : Int) (p : Patient) : Except Unit ProtocolResult := do
  let d ← in_denominator now p
  if d then do
    let n ← in_numerator now p
    if n then
      return { status := STATUS_SATISFIED,
               narratives := ["Patient has been contacted in the past week."] }
    else
      return { status := STATUS_DUE, due_in := some (-1),
               narratives := ["Patient has no follow-up appointment within their risk stratification period and has not been contacted over the past period."] }
  else
    return { status := STATUS_NOT_APPLICABLE,
             narratives := ["Patient has an appointment within their risk period or has been contacted."] }

end FollowupOverdue

namespace SpecialTasks

/-- Python `ENGAGEMENT_TRANSITION_TASK_LABELS = ['Engagement']` (SpecialTasks.py
line 18). -/
def ENGAGEMENT_TRANSITION_TASK_LABELS : List String := ["Engagement"]

/-- Python `SpecialTasks._get_tasks_by_label` (lines 32-47): the open tasks
(`status='OPEN'`) one of whose labels belongs to `labels`. -/
def get_tasks_by_label (p : Patient) (labels : List String) : List Task :=
  (p.tasks.filter (fun t => t.status == "OPEN")).filter
    (fun t => t.labels.any (fun l => decide (l ∈ labels)))

/-- Python `SpecialTasks.in_denominator` (lines 49-56): the patient has an open
engagement-labelled task. -/
def in_denominator (p : Patient) : Bool :=
  !(get_tasks_by_label p ENGAGEMENT_TRANSITION_TASK_LABELS).isEmpty

/-- Python `SpecialTasks.in_numerator` (lines 58-66): some open
engagement-labelled task is due strictly after `NOW`. -/
def in_numerator (now : Int) (p : Patient) : Bool :=
  (get_tasks_by_label p ENGAGEMENT_TRANSITION_TASK_LABELS).any
    (fun t => decide (now < t.due))

/-- Python `SpecialTasks.compute_results` (lines 68-88). -/
def compute_results (now : Int) (p : Patient) : ProtocolResult :=
  if in_denominator p then
    if in_numerator now p then
      { status := STATUS_SATISFIED,
        narratives := ["Special tasks are in the future."] }
    else
      { status := STATUS_DUE, due_in := some (-1),
        narratives := ["Patient has past due special tasks to be addressed."] }
  else
    { status := STATUS_NOT_APPLICABLE,
      narratives := ["Patient does not have any special tasks."] }

end SpecialTasks

namespace HormoneTherapy

/-- Python `PostmenopausalState` value-set codes (PostmenopausalHormoneTherapy.py
lines 13-15). -/
def PostmenopausalState : List String := ["N95.0", "N95.1"]

/-- Python `Hysterectomy` value-set codes (lines 17-20). -/
def Hysterectomy : List String := ["Z90.710", "236886002"]

/-- Python `EstrogenTherapy` value-set codes (lines 26-28). -/
def EstrogenTherapy : List String := ["2254-1"]

/-- Python `ProgestinTherapy` value-set codes (lines 31-33). -/
def ProgestinTherapy : List String := ["2839-9"]

/-- Python `EstrogenAndProgestinTherapy` value-set codes (lines 35-37). -/
def EstrogenAndProgestinTherapy : List String := ["2839-9", "2254-1"]

/-- Python `patient.conditions.find(valueSet)`: the conditions one of whose codes
belongs to the value set. -/
def findConditions (l : List Condition) (vs : List String) : List Condition :=
  l.filter (fun c => c.codes.any (fun code => decide (code ∈ vs)))

/-- Python `patient.medications.find(valueSet)`: the medications one of whose
codes belongs to the value set. -/
def findMedications (l : List Medication) (vs : List String) : List Medication :=
  l.filter (fun m => m.codes.any (fun code => decide (code ∈ vs)))

/-- Python `HormoneTherapyProtocol.in_denominator` (lines 69-73): the patient has
a postmenopausal-state condition. -/
def in_denominator (p : Patient) : Bool :=
  decide (0 < (findConditions p.conditions PostmenopausalState).length)

/-- The `len(self.patient.conditions.find(Hysterectomy)) > 0` test used by
both `in_numerator` (line 85) and `compute_results` (line 100). -/
def hasHysterectomy (p : Patient) : Bool :=
  decide (0 < (findConditions p.conditions Hysterectomy).length)

/-- Python `HormoneTherapyProtocol.in_numerator` (lines 75-89): estrogen therapy
alone when a hysterectomy condition is present, estrogen and progestin
together otherwise. -/
def in_numerator (p : Patient) : Bool :=
  let progestin_therapy := decide (0 < (findMedications p.medications ProgestinTherapy).length)
  let estrogen_therapy := decide (0 < (findMedications p.medications EstrogenTherapy).length)
  if hasHysterectomy p then estrogen_therapy && !progestin_therapy
  else estrogen_therapy && progestin_therapy

/-- The `PrescribeRecommendation` of the hysterectomy branch
(lines 104-114). -/
def estrogenRecommendation : Recommendation :=
  { key := "RECOMMEND_ESTROGEN_THERAPY", rank := 1, button := "Prescribe",
    prescription := EstrogenTherapy,
    title := "Recommendation of Estrogen Therapy." }

/-- The `PrescribeRecommendation` of the intact-uterus branch
(lines 119-129). -/
def estrogenAndProgestinRecommendation : Recommendation :=
  { key := "RECOMMEND_ESTROGEN_AND_PROGESTIN_THERAPY", rank := 1, button := "Prescribe",
    prescription := EstrogenAndProgestinTherapy,
    title := "Recommendation of Estrogen and Progestin Therapy." }

/-- Python `HormoneTherapyProtocol.compute_results` (lines 96-131). -/
def compute_results (p : Patient) : ProtocolResult :=
  let result : ProtocolResult := {}
  if in_denominator p then
    if hasHysterectomy p then
      if !in_numerator p then
        { result with status := STATUS_DUE,
                      recommendations := result.recommendations ++ [estrogenRecommendation] }
      else result
    else
      if !in_numerator p then
        { result with status := STATUS_DUE,
                      recommendations := result.recommendations ++ [estrogenAndProgestinRecommendation] }
      else result
  else result

end HormoneTherapy

/-! Concrete patient snapshots used by the counterexamples and witnesses. -/

/-- A patient snapshot with every collection empty. -/
def emptyPatient : Patient :=
  { interviews := [], messages := [], appointments := [], upcoming_appointments := [],
    tasks := [], conditions := [], medications := [] }

/-- A `CALL_TO_PATIENT` response (code `QUES_PHONE_10`). -/
def callToPatientResponse : Response := { code := "QUES_PHONE_10", value := "Patient" }

/-- A completed patient-directed phone-call-disposition interview at time 0. -/
def iCallRecent : Interview :=
  { questionnaireId := "QUES_PHONE_01", status := "AC", noteTimestamp := 0,
    responses := [callToPatientResponse] }

/-- A patient whose only record is a patient-directed call at time 0. -/
def pCallRecent : Patient := { emptyPatient with interviews := [iCallRecent] }

/-- A patient whose only upcoming appointment is cancelled and starts 10
seconds from now. -/
def pCancelledUpcoming : Patient :=
  { emptyPatient with upcoming_appointments := [{ status := "cancelled", startTime := 10 }] }

/-- A completed patient-directed call at exactly time 1000. -/
def iCallAtT : Interview :=
  { questionnaireId := "QUES_PHONE_01", status := "AC", noteTimestamp := 1000,
    responses := [callToPatientResponse] }

/-- A patient checked in at time 1000 with a patient-directed call at exactly
time 1000 and no messages. -/
def pBoundaryCall : Patient :=
  { emptyPatient with
    appointments := [{ stateHistory := [{ state := "CVD", created := 1000 }] }],
    interviews := [iCallAtT] }

/-- A patient with one checked-in appointment at time 500 and nothing else. -/
def pCheckedInOnly : Patient :=
  { emptyPatient with
    appointments := [{ stateHistory := [{ state := "CVD", created := 500 }] }] }

/-- A patient with a staff message, a patient-directed call, no upcoming
appointments, and one past appointment that was never checked in (no
`CVD` state), so zero checked-in past appointments. -/
def pContactsNoAppointments : Patient :=
  { emptyPatient with
    interviews := [iCallRecent],
    messages := [{ sender := [{ type := "Staff" }], created := 100 }],
    appointments := [{ stateHistory := [{ state := "NSW", created := 100 }] }] }

/-- A completed phone-call-disposition interview whose responses hold a
`CALL_TO_PATIENT` code first and an unknown code after it. -/
def iBadAfterCall : Interview :=
  { questionnaireId := "QUES_PHONE_01", status := "AC", noteTimestamp := 0,
    responses := [callToPatientResponse, { code := "QUES_PHONE_99", value := "oops" }] }

/-- A patient whose phone-call interview carries an unknown response code
shadowed by an earlier `CALL_TO_PATIENT` code. -/
def pBadCodeShadowed : Patient := { emptyPatient with interviews := [iBadAfterCall] }

/-- Reduction of the `Except` monad's bind on a success value. -/
lemma bind_ok_eq {α β : Type} (a : α) (f : α → Except Unit β) :
    (Except.ok a : Except Unit α) >>= f = f a := rfl

/-- Reduction of the `Except` monad's bind on a fault. -/
lemma bind_error_eq {α β : Type} (f : α → Except Unit β) :
    (Except.error () : Except Unit α) >>= f = Except.error () := rfl

/-- Reduction of the `Except` monad's pure. -/
lemma pure_eq_ok {α : Type} (a : α) : (pure a : Except Unit α) = Except.ok a := rfl

namespace FollowupOverdue

/-- The response scan faults exactly when an unknown code is reached before
any `CALL_TO_PATIENT` code. -/
lemma anyCallToPatient_error_iff (rs : List Response) :
    anyCallToPatient rs = Except.error () ↔ hitsInvalidBeforeCall rs = true := by
  induction rs with
  | nil => simp [anyCallToPatient, hitsInvalidBeforeCall]
  | cons r rest ih =>
      cases h : phoneResponsesOfCode r.code with
      | none => simp [anyCallToPatient, hitsInvalidBeforeCall, h]
      | some pr =>
          by_cases hc : pr = PhoneResponses.CALL_TO_PATIENT <;>
            simp [anyCallToPatient, hitsInvalidBeforeCall, h, hc, ih]

/-- Membership in a successful run of the call-to-patient comprehension. -/
lemma filterCallsToPatient_ok_mem {l out : List Interview}
    (h : filterCallsToPatient l = Except.ok out) (i : Interview) :
    i ∈ out ↔ i ∈ l ∧ anyCallToPatient i.responses = Except.ok true := by
  induction l generalizing out with
  | nil =>
      simp only [filterCallsToPatient, Except.ok.injEq] at h
      simp [← h]
  | cons a rest ih =>
      rw [filterCallsToPatient] at h
      cases ha : anyCallToPatient a.responses with
      | error e => cases e; rw [ha, bind_error_eq] at h; cases h
      | ok b =>
          rw [ha, bind_ok_eq] at h
          cases ht : filterCallsToPatient rest with
          | error e => cases e; rw [ht, bind_error_eq] at h; cases h
          | ok tail =>
              rw [ht, bind_ok_eq] at h
              cases b with
              | false =>
                  simp only [Bool.false_eq_true, if_false, pure_eq_ok,
                    Except.ok.injEq] at h
                  subst h
                  rw [ih ht]
                  constructor
                  · rintro ⟨hm, hok⟩; exact ⟨List.mem_cons_of_mem _ hm, hok⟩
                  · rintro ⟨hm, hok⟩
                    rcases List.mem_cons.mp hm with rfl | hm
                    · rw [ha] at hok; cases hok
                    · exact ⟨hm, hok⟩
              | true =>
                  simp only [if_true, pure_eq_ok, Except.ok.injEq] at h
                  subst h
                  constructor
                  · intro hm
                    rcases List.mem_cons.mp hm with rfl | hm
                    · exact ⟨List.mem_cons_self _ _, ha⟩
                    · rcases (ih ht).mp hm with ⟨hm, hok⟩
                      exact ⟨List.mem_cons_of_mem _ hm, hok⟩
                  · rintro ⟨hm, hok⟩
                    rcases List.mem_cons.mp hm with rfl | hm
                    · exact List.mem_cons_self _ _
                    · exact List.mem_cons_of_mem _ ((ih ht).mpr ⟨hm, hok⟩)

/-- The comprehension faults exactly when some interview's scan faults. -/
lemma filterCallsToPatient_error_iff (l : List Interview) :
    filterCallsToPatient l = Except.error () ↔
      ∃ i ∈ l, anyCallToPatient i.responses = Except.error () := by
  induction l with
  | nil => simp [filterCallsToPatient]
  | cons a rest ih =>
      rw [filterCallsToPatient]
      cases ha : anyCallToPatient a.responses with
      | error e =>
          cases e
          rw [bind_error_eq]
          exact iff_of_true rfl ⟨a, List.mem_cons_self a rest, ha⟩
      | ok b =>
          rw [bind_ok_eq]
          cases ht : filterCallsToPatient rest with
          | error e =>
              cases e
              rw [bind_error_eq]
              refine iff_of_true rfl ?_
              rcases ih.mp ht with ⟨i, hi, he⟩
              exact ⟨i, List.mem_cons_of_mem _ hi, he⟩
          | ok tail =>
              rw [bind_ok_eq]
              have hne : (if b = true then (pure (a :: tail) : Except Unit (List Interview))
                  else pure tail) ≠ Except.error () := by
                cases b <;> simp [pure_eq_ok]
              refine iff_of_false hne ?_
              rintro ⟨i, hi, he⟩
              rcases List.mem_cons.mp hi with rfl | hi
              · rw [ha] at he; cases he
              · exact absurd (ih.mpr ⟨i, hi, he⟩) (by simp [ht])

/-- Membership in a successful run of `_get_phone_calls_to_patient`: exactly
the completed phone-call-disposition interviews of the patient whose
response scan finds a `CALL_TO_PATIENT` code. -/
lemma get_phone_calls_ok_mem {p : Patient} {calls : List Interview}
    (h : get_phone_calls_to_patient p = Except.ok calls) (i : Interview) :
    i ∈ calls ↔ i ∈ p.interviews ∧
      i.questionnaireId ∈ PhoneCallDispositionQuestionnaire ∧ i.status = "AC" ∧
      anyCallToPatient i.responses = Except.ok true := by
  rw [get_phone_calls_to_patient] at h
  rw [filterCallsToPatient_ok_mem h i, List.mem_filter, findInterviews, List.mem_filter]
  simp only [decide_eq_true_eq, beq_iff_eq]
  tauto

end FollowupOverdue

/-- C8: for every risk stratification level outside the keys of the fixed
mapping table (`Low`, `Medium`, `High Risk`, `High Risk - Unstable`), the
window resolved by `_get_risk_stratification_period` is the 198-day
default; moreover the lookup always yields one of the three windows, and
the table lookup falls back to the default on every unmapped level. -/
theorem risk_period_default_and_total (now : Int) (p : Patient) :
    (FollowupOverdue.get_risk_stratification now p ∉ RISK_WINDOW_KEYS →
        FollowupOverdue.get_risk_stratification_period now p = SIX_MONTHS_WINDOW) ∧
    FollowupOverdue.get_risk_stratification_period now p ∈
      [NEXT_MONTH_WINDOW, TWO_MONTH_WINDOW, SIX_MONTHS_WINDOW] ∧
    ∀ level : String, level ∉ RISK_WINDOW_KEYS →
      riskWindowsGet level SIX_MONTHS_WINDOW = SIX_MONTHS_WINDOW := by
  refine ⟨?_, ?_, ?_⟩
  · intro h
    simp only [RISK_WINDOW_KEYS, List.mem_cons, List.not_mem_nil, or_false, not_or] at h
    obtain ⟨h1, h2, h3, h4⟩ := h
    simp [FollowupOverdue.get_risk_stratification_period, riskWindowsGet, h1, h2, h3, h4]
  · rw [FollowupOverdue.get_risk_stratification_period, riskWindowsGet]
    split_ifs <;> simp
  · intro level h
    simp only [RISK_WINDOW_KEYS, List.mem_cons, List.not_mem_nil, or_false, not_or] at h
    obtain ⟨h1, h2, h3, h4⟩ := h
    simp [riskWindowsGet, h1, h2, h3, h4]

/-- C2: given that the phone-call filter returns without fault, the
overdue-followup numerator is true exactly when some completed
(`status='AC'`) phone-call-disposition interview directed to the patient
has a timestamp greater than or equal to now minus 7 days. -/
theorem in_numerator_iff_recent_call (now : Int) (p : Patient) (calls : List Interview)
    (h : FollowupOverdue.get_phone_calls_to_patient p = Except.ok calls) :
    FollowupOverdue.in_numerator now p = Except.ok true ↔
      ∃ i ∈ p.interviews,
        i.questionnaireId ∈ PhoneCallDispositionQuestionnaire ∧ i.status = "AC" ∧
        FollowupOverdue.anyCallToPatient i.responses = Except.ok true ∧
        now - weekSeconds ≤ i.noteTimestamp := by
  have hmem := fun i => FollowupOverdue.get_phone_calls_ok_mem h i
  rw [FollowupOverdue.in_numerator, h, bind_ok_eq]
  simp only [pure_eq_ok, Except.ok.injEq, Bool.not_eq_true']
  rw [show (FollowupOverdue.interviewsAfter (now - weekSeconds) calls).isEmpty = false ↔
        ∃ i, i ∈ FollowupOverdue.interviewsAfter (now - weekSeconds) calls by
      simp [List.isEmpty_iff, List.eq_nil_iff_forall_not_mem]]
  constructor
  · rintro ⟨i, hif⟩
    rw [FollowupOverdue.interviewsAfter, List.mem_filter] at hif
    obtain ⟨hic, hts⟩ := hif
    rcases (hmem i).mp hic with ⟨hpi, hq, hs, hok⟩
    exact ⟨i, hpi, hq, hs, hok, by simpa using hts⟩
  · rintro ⟨i, hpi, hq, hs, hok, hts⟩
    refine ⟨i, ?_⟩
    rw [FollowupOverdue.interviewsAfter, List.mem_filter]
    exact ⟨(hmem i).mpr ⟨hpi, hq, hs, hok⟩, by simpa using hts⟩

/-- C2 witness: the patient whose single record is a completed
patient-directed call at time 0 instantiates the numerator
characterization at `now = 0`. -/
theorem in_numerator_iff_recent_call_witness :
    FollowupOverdue.in_numerator 0 pCallRecent = Except.ok true ↔
      ∃ i ∈ pCallRecent.interviews,
        i.questionnaireId ∈ PhoneCallDispositionQuestionnaire ∧ i.status = "AC" ∧
        FollowupOverdue.anyCallToPatient i.responses = Except.ok true ∧
        (0 : Int) - weekSeconds ≤ i.noteTimestamp :=
  in_numerator_iff_recent_call 0 pCallRecent [iCallRecent] rfl

/-- A faulting scan exhibits a response whose code is outside the
enumeration. -/
lemma hitsInvalid_implies_invalid (rs : List Response)
    (h : FollowupOverdue.hitsInvalidBeforeCall rs = true) :
    ∃ r ∈ rs, phoneResponsesOfCode r.code = none := by
  induction rs with
  | nil => cases h
  | cons r rest ih =>
      rw [FollowupOverdue.hitsInvalidBeforeCall] at h
      cases hr : phoneResponsesOfCode r.code with
      | none => exact ⟨r, List.mem_cons_self r rest, hr⟩
      | some pr =>
          rw [hr] at h
          replace h : (if pr = PhoneResponses.CALL_TO_PATIENT then false
              else FollowupOverdue.hitsInvalidBeforeCall rest) = true := h
          by_cases hc : pr = PhoneResponses.CALL_TO_PATIENT
          · rw [if_pos hc] at h; cases h
          · rw [if_neg hc] at h
            rcases ih h with ⟨r', hr', hn⟩
            exact ⟨r', List.mem_cons_of_mem _ hr', hn⟩

/-- C9 counterexample: the claim says the filter (and its callers) raise
whenever some completed phone-call-disposition interview contains a
response code outside the enumeration.  In `pBadCodeShadowed` such a code
(`QUES_PHONE_99`) is present, yet the scan stops at the earlier
`CALL_TO_PATIENT` code, so the filter and all three callers return without
fault. -/
theorem phone_calls_unknown_code_ok_cex :
    (∃ i ∈ pBadCodeShadowed.interviews,
        i.questionnaireId ∈ PhoneCallDispositionQuestionnaire ∧ i.status = "AC" ∧
        ∃ r ∈ i.responses, phoneResponsesOfCode r.code = none) ∧
    FollowupOverdue.get_phone_calls_to_patient pBadCodeShadowed = Except.ok [iBadAfterCall] ∧
    FollowupOverdue.in_numerator 0 pBadCodeShadowed = Except.ok true ∧
    FollowupOverdue.in_denominator 0 pBadCodeShadowed = Except.ok true ∧
    FollowupOverdue.compute_results 0 pBadCodeShadowed =
      Except.ok { status := STATUS_SATISFIED,
                  narratives := ["Patient has been contacted in the past week."] } :=
  ⟨by decide, rfl, rfl, rfl, rfl⟩

/-- C9 (amended): `_get_phone_calls_to_patient` faults exactly when some
completed phone-call-disposition interview's response list, read in order,
reaches a code outside the `PhoneResponses` enumeration before any
`CALL_TO_PATIENT` code; when every response code of every such interview
is in the enumeration the filter is total; `in_numerator` faults exactly
when the filter does, `in_denominator` exactly when a most recent
checked-in appointment exists and the filter faults, and `compute_results`
exactly when the branch it evaluates faults. -/
theorem get_phone_calls_error_characterization (now : Int) (p : Patient) :
    (FollowupOverdue.get_phone_calls_to_patient p = Except.error () ↔
      ∃ i ∈ p.interviews,
        i.questionnaireId ∈ PhoneCallDispositionQuestionnaire ∧ i.status = "AC" ∧
        FollowupOverdue.hitsInvalidBeforeCall i.responses = true) ∧
    ((∀ i ∈ p.interviews,
        i.questionnaireId ∈ PhoneCallDispositionQuestionnaire → i.status = "AC" →
        ∀ r ∈ i.responses, (phoneResponsesOfCode r.code).isSome = true) →
      ∃ calls, FollowupOverdue.get_phone_calls_to_patient p = Except.ok calls) ∧
    (FollowupOverdue.in_numerator now p = Except.error () ↔
      FollowupOverdue.get_phone_calls_to_patient p = Except.error ()) ∧
    (FollowupOverdue.in_denominator now p = Except.error () ↔
      (FollowupOverdue.get_most_recent_appointment p ≠ none ∧
       FollowupOverdue.get_phone_calls_to_patient p = Except.error ())) ∧
    (FollowupOverdue.compute_results now p = Except.error () ↔
      (FollowupOverdue.in_denominator now p = Except.error () ∨
       (FollowupOverdue.in_denominator now p = Except.ok true ∧
        FollowupOverdue.in_numerator now p = Except.error ()))) := by
  have h1 : FollowupOverdue.get_phone_calls_to_patient p = Except.error () ↔
      ∃ i ∈ p.interviews,
        i.questionnaireId ∈ PhoneCallDispositionQuestionnaire ∧ i.status = "AC" ∧
        FollowupOverdue.hitsInvalidBeforeCall i.responses = true := by
    rw [FollowupOverdue.get_phone_calls_to_patient,
      FollowupOverdue.filterCallsToPatient_error_iff]
    constructor
    · rintro ⟨i, hi, he⟩
      rw [List.mem_filter] at hi
      obtain ⟨hi, hs⟩ := hi
      rw [FollowupOverdue.findInterviews, List.mem_filter] at hi
      obtain ⟨hi, hq⟩ := hi
      exact ⟨i, hi, by simpa using hq, by simpa using hs,
        (FollowupOverdue.anyCallToPatient_error_iff _).mp he⟩
    · rintro ⟨i, hi, hq, hs, hh⟩
      refine ⟨i, ?_, (FollowupOverdue.anyCallToPatient_error_iff _).mpr hh⟩
      rw [List.mem_filter, FollowupOverdue.findInterviews, List.mem_filter]
      refine ⟨⟨hi, by simpa using hq⟩, by simpa using hs⟩
  have h2 : (∀ i ∈ p.interviews,
      i.questionnaireId ∈ PhoneCallDispositionQuestionnaire → i.status = "AC" →
      ∀ r ∈ i.responses, (phoneResponsesOfCode r.code).isSome = true) →
      ∃ calls, FollowupOverdue.get_phone_calls_to_patient p = Except.ok calls := by
    intro hvalid
    cases hg : FollowupOverdue.get_phone_calls_to_patient p with
    | ok calls => exact ⟨calls, rfl⟩
    | error e =>
        cases e
        rcases h1.mp hg with ⟨i, hi, hq, hs, hh⟩
        rcases hitsInvalid_implies_invalid _ hh with ⟨r, hr, hn⟩
        have := hvalid i hi hq hs r hr
        rw [hn] at this
        cases this
  have h3 : FollowupOverdue.in_numerator now p = Except.error () ↔
      FollowupOverdue.get_phone_calls_to_patient p = Except.error () := by
    rw [FollowupOverdue.in_numerator]
    cases hg : FollowupOverdue.get_phone_calls_to_patient p with
    | error e =>
        cases e
        rw [bind_error_eq]
        exact iff_of_true rfl rfl
    | ok calls =>
        rw [bind_ok_eq]
        exact iff_of_false (fun h => Except.noConfusion h) (fun h => Except.noConfusion h)
  have hnrc : FollowupOverdue.no_recent_contact p = Except.error () ↔
      (FollowupOverdue.get_most_recent_appointment p ≠ none ∧
       FollowupOverdue.get_phone_calls_to_patient p = Except.error ()) := by
    cases hm : FollowupOverdue.get_most_recent_appointment p with
    | none =>
        have hn : FollowupOverdue.no_recent_contact p = Except.ok true := by
          rw [FollowupOverdue.no_recent_contact, hm]
        rw [hn]
        exact iff_of_false (fun h => Except.noConfusion h) (fun h => h.1 rfl)
    | some t =>
        cases hg : FollowupOverdue.get_phone_calls_to_patient p with
        | error e =>
            cases e
            have hval : FollowupOverdue.no_recent_contact p = Except.error () := by
              rw [FollowupOverdue.no_recent_contact, hm, hg]; rfl
            rw [hval]
            exact iff_of_true rfl ⟨fun h => Option.noConfusion h, rfl⟩
        | ok calls =>
            have hval : FollowupOverdue.no_recent_contact p =
                Except.ok (!(!(FollowupOverdue.get_messages_to_patient_after p t).isEmpty ||
                  (if calls.isEmpty = true then false
                   else !(FollowupOverdue.interviewsAfter t calls).isEmpty))) := by
              rw [FollowupOverdue.no_recent_contact, hm, hg]; rfl
            rw [hval]
            exact iff_of_false (fun h => Except.noConfusion h)
              (fun h => Except.noConfusion h.2)
  have h4 : FollowupOverdue.in_denominator now p = Except.error () ↔
      (FollowupOverdue.get_most_recent_appointment p ≠ none ∧
       FollowupOverdue.get_phone_calls_to_patient p = Except.error ()) := by
    rw [FollowupOverdue.in_denominator, ← hnrc]
    cases hn : FollowupOverdue.no_recent_contact p with
    | error e =>
        cases e
        rw [bind_error_eq]
    | ok b =>
        rw [bind_ok_eq]
        exact iff_of_false (fun h => Except.noConfusion h) (fun h => Except.noConfusion h)
  refine ⟨h1, h2, h3, h4, ?_⟩
  rw [FollowupOverdue.compute_results]
  cases hd : FollowupOverdue.in_denominator now p with
  | error e =>
      cases e
      rw [bind_error_eq]
      exact iff_of_true rfl (Or.inl rfl)
  | ok d =>
      rw [bind_ok_eq]
      cases d with
      | false =>
          refine iff_of_false (fun h => Except.noConfusion h) ?_
          rintro (h | ⟨h, _⟩)
          · exact Except.noConfusion h
          · simp at h
      | true =>
          cases hn : FollowupOverdue.in_numerator now p with
          | error e =>
              cases e
              rw [if_pos rfl, bind_error_eq]
              exact iff_of_true rfl (Or.inr ⟨rfl, rfl⟩)
          | ok n =>
              rw [if_pos rfl, bind_ok_eq]
              cases n with
              | false =>
                  refine iff_of_false (fun h => Except.noConfusion h) ?_
                  rintro (h | ⟨_, h⟩) <;> exact Except.noConfusion h
              | true =>
                  refine iff_of_false (fun h => Except.noConfusion h) ?_
                  rintro (h | ⟨_, h⟩) <;> exact Except.noConfusion h

/-- C1: `FollowupOverdue.compute_results` maps a false denominator to
`not_applicable`, a true denominator with a false numerator to `due` with
urgency `due_in = -1`, and a true denominator with a true numerator to
`satisfied`. -/
theorem compute_results_three_states (now : Int) (p : Patient) :
    (FollowupOverdue.in_denominator now p = Except.ok false →
      ∃ r, FollowupOverdue.compute_results now p = Except.ok r ∧
        r.status = STATUS_NOT_APPLICABLE) ∧
    (FollowupOverdue.in_denominator now p = Except.ok true →
     FollowupOverdue.in_numerator now p = Except.ok false →
      ∃ r, FollowupOverdue.compute_results now p = Except.ok r ∧
        r.status = STATUS_DUE ∧ r.due_in = some (-1)) ∧
    (FollowupOverdue.in_denominator now p = Except.ok true →
     FollowupOverdue.in_numerator now p = Except.ok true →
      ∃ r, FollowupOverdue.compute_results now p = Except.ok r ∧
        r.status = STATUS_SATISFIED) := by
  refine ⟨?_, ?_, ?_⟩
  · intro hd
    rw [FollowupOverdue.compute_results, hd, bind_ok_eq]
    exact ⟨_, rfl, rfl⟩
  · intro hd hn
    rw [FollowupOverdue.compute_results, hd, bind_ok_eq]
    rw [if_pos rfl, hn, bind_ok_eq]
    exact ⟨_, rfl, rfl, rfl⟩
  · intro hd hn
    rw [FollowupOverdue.compute_results, hd, bind_ok_eq]
    rw [if_pos rfl, hn, bind_ok_eq]
    exact ⟨_, rfl, rfl⟩

/-- C5: a patient with no upcoming appointments and zero checked-in past
appointments (a past appointment carrying no `CVD` state counts as none)
is in the overdue-followup denominator whatever their messages and phone
calls hold (the recent-contact suppression needs a most recent checked-in
appointment). -/
theorem in_denominator_of_no_appointments (now : Int) (p : Patient)
    (h1 : p.upcoming_appointments = [])
    (h2 : FollowupOverdue.get_past_appointments p = []) :
    FollowupOverdue.in_denominator now p = Except.ok true := by
  have hm : FollowupOverdue.get_most_recent_appointment p = none := by
    rw [FollowupOverdue.get_most_recent_appointment, h2]
    rfl
  have hnrc : FollowupOverdue.no_recent_contact p = Except.ok true := by
    rw [FollowupOverdue.no_recent_contact, hm]
  have hnfa : FollowupOverdue.no_follow_up_appointment now p = true := by
    rw [FollowupOverdue.no_follow_up_appointment, h1]
    rfl
  rw [FollowupOverdue.in_denominator, hnrc, bind_ok_eq]
  rw [hnfa]
  rfl

/-- C5 witness: a patient carrying a staff message, a patient-directed
call and one never-checked-in past appointment is in the denominator. -/
theorem in_denominator_of_no_appointments_witness :
    FollowupOverdue.in_denominator 0 pContactsNoAppointments = Except.ok true :=
  in_denominator_of_no_appointments 0 pContactsNoAppointments rfl rfl

/-- C3 counterexample: the claim says a cancelled upcoming appointment
never affects the no-upcoming-follow-up condition, but the code iterates
`patient.upcoming_appointments` unfiltered: `pCancelledUpcoming` has no
non-cancelled upcoming appointment, yet its cancelled appointment inside
the risk window makes the condition false. -/
theorem no_follow_up_cancelled_counted_cex :
    FollowupOverdue.get_upcoming_appointments pCancelledUpcoming = [] ∧
    pCancelledUpcoming.upcoming_appointments ≠ [] ∧
    FollowupOverdue.no_follow_up_appointment 0 pCancelledUpcoming = false := by
  refine ⟨rfl, ?_, ?_⟩ <;> decide

/-- C3 (amended): the no-upcoming-follow-up condition is true iff the
patient has no upcoming appointment at all, or none of the upcoming
appointments — cancelled ones included — starts strictly before now plus
the resolved risk window. -/
theorem no_follow_up_appointment_iff_all_upcoming (now : Int) (p : Patient) :
    FollowupOverdue.no_follow_up_appointment now p = true ↔
      (p.upcoming_appointments = [] ∨
        ∀ a ∈ p.upcoming_appointments,
          ¬(a.startTime < now + FollowupOverdue.get_risk_stratification_period now p)) := by
  rw [FollowupOverdue.no_follow_up_appointment]
  by_cases he : p.upcoming_appointments.isEmpty
  · rw [if_pos he]
    rw [List.isEmpty_iff] at he
    simp [he]
  · rw [if_neg he]
    have hne : p.upcoming_appointments ≠ [] := by
      simpa [List.isEmpty_iff] using he
    simp only [Bool.not_eq_true', List.any_eq_false, FollowupOverdue.is_before_risk_period,
      decide_eq_true_eq, hne, false_or]

/-- C4 counterexample: the claim says a phone call at exactly the most
recent checked-in appointment time leaves "no recent contact" true (only
strictly later contacts count), but the record-set cut keeps calls at or
after that time: `pBoundaryCall` has its only call at exactly time 1000
and no messages, yet `no_recent_contact` is false. -/
theorem no_recent_contact_boundary_cex :
    FollowupOverdue.get_most_recent_appointment pBoundaryCall = some 1000 ∧
    pBoundaryCall.messages = [] ∧
    FollowupOverdue.get_phone_calls_to_patient pBoundaryCall = Except.ok [iCallAtT] ∧
    (∀ i ∈ [iCallAtT], ¬((1000 : Int) < i.noteTimestamp)) ∧
    FollowupOverdue.no_recent_contact pBoundaryCall = Except.ok false :=
  ⟨rfl, rfl, rfl, by decide, rfl⟩

/-- C4 (amended): when a most recent checked-in appointment time `t`
exists and the phone-call filter returns without fault, "no recent
contact" is true iff no staff-originated message was created strictly
after `t` and no completed patient-directed phone call has its timestamp
at or after `t`. -/
theorem no_recent_contact_iff_contacts (p : Patient) (t : Int) (calls : List Interview)
    (h1 : FollowupOverdue.get_most_recent_appointment p = some t)
    (h2 : FollowupOverdue.get_phone_calls_to_patient p = Except.ok calls) :
    FollowupOverdue.no_recent_contact p = Except.ok true ↔
      ((¬∃ m ∈ p.messages, (∃ s ∈ m.sender, s.type = "Staff") ∧ t < m.created) ∧
       (¬∃ i ∈ calls, t ≤ i.noteTimestamp)) := by
  have hca : (if calls.isEmpty = true then false
      else !(FollowupOverdue.interviewsAfter t calls).isEmpty) =
      !(FollowupOverdue.interviewsAfter t calls).isEmpty := by
    by_cases hc : calls.isEmpty = true
    · rw [if_pos hc]
      rw [List.isEmpty_iff] at hc
      simp [FollowupOverdue.interviewsAfter, hc]
    · rw [if_neg hc]
  have hval : FollowupOverdue.no_recent_contact p =
      Except.ok (!(!(FollowupOverdue.get_messages_to_patient_after p t).isEmpty ||
        (if calls.isEmpty = true then false
         else !(FollowupOverdue.interviewsAfter t calls).isEmpty))) := by
    rw [FollowupOverdue.no_recent_contact, h1, h2]; rfl
  rw [hval, hca]
  simp only [Except.ok.injEq, Bool.not_eq_true', Bool.or_eq_false_iff, Bool.not_eq_false']
  rw [FollowupOverdue.get_messages_to_patient_after, FollowupOverdue.interviewsAfter,
    List.isEmpty_iff, List.isEmpty_iff, List.filter_eq_nil_iff, List.filter_eq_nil_iff]
  simp only [Bool.and_eq_true, List.any_eq_true, decide_eq_true_eq, beq_iff_eq,
    not_exists, not_and, not_lt, not_le]

/-- C4 witness: a patient with one checked-in appointment at time 500 and
no contacts at all instantiates the amended characterization. -/
theorem no_recent_contact_iff_contacts_witness :
    FollowupOverdue.no_recent_contact pCheckedInOnly = Except.ok true :=
  (no_recent_contact_iff_contacts pCheckedInOnly 500 [] rfl rfl).mpr
    ⟨by simp [pCheckedInOnly, emptyPatient], by simp⟩

/-- Membership in the label-filtered open tasks. -/
lemma mem_get_tasks_by_label (p : Patient) (labels : List String) (t : Task) :
    t ∈ SpecialTasks.get_tasks_by_label p labels ↔
      t ∈ p.tasks ∧ t.status = "OPEN" ∧ ∃ l ∈ t.labels, l ∈ labels := by
  rw [SpecialTasks.get_tasks_by_label, List.mem_filter, List.mem_filter]
  simp only [List.any_eq_true, decide_eq_true_eq, beq_iff_eq, and_assoc]

/-- The task-based denominator holds exactly when an open
engagement-labelled task exists. -/
lemma special_in_denominator_iff (p : Patient) :
    SpecialTasks.in_denominator p = true ↔
      ∃ t ∈ p.tasks, t.status = "OPEN" ∧
        ∃ l ∈ t.labels, l ∈ SpecialTasks.ENGAGEMENT_TRANSITION_TASK_LABELS := by
  rw [SpecialTasks.in_denominator]
  rw [show (!(SpecialTasks.get_tasks_by_label p
        SpecialTasks.ENGAGEMENT_TRANSITION_TASK_LABELS).isEmpty) = true ↔
      ∃ t, t ∈ SpecialTasks.get_tasks_by_label p
        SpecialTasks.ENGAGEMENT_TRANSITION_TASK_LABELS by
    simp [List.isEmpty_iff, List.eq_nil_iff_forall_not_mem]]
  constructor
  · rintro ⟨t, ht⟩
    rcases (mem_get_tasks_by_label p _ t).mp ht with ⟨h1, h2, h3⟩
    exact ⟨t, h1, h2, h3⟩
  · rintro ⟨t, h1, h2, h3⟩
    exact ⟨t, (mem_get_tasks_by_label p _ t).mpr ⟨h1, h2, h3⟩⟩

/-- The task-based numerator holds exactly when an open engagement-labelled
task is due strictly after now. -/
lemma special_in_numerator_iff (now : Int) (p : Patient) :
    SpecialTasks.in_numerator now p = true ↔
      ∃ t ∈ p.tasks, t.status = "OPEN" ∧
        (∃ l ∈ t.labels, l ∈ SpecialTasks.ENGAGEMENT_TRANSITION_TASK_LABELS) ∧
        now < t.due := by
  rw [SpecialTasks.in_numerator]
  simp only [List.any_eq_true, decide_eq_true_eq]
  constructor
  · rintro ⟨t, ht, hd⟩
    rcases (mem_get_tasks_by_label p _ t).mp ht with ⟨h1, h2, h3⟩
    exact ⟨t, h1, h2, h3, hd⟩
  · rintro ⟨t, h1, h2, h3, hd⟩
    exact ⟨t, (mem_get_tasks_by_label p _ t).mpr ⟨h1, h2, h3⟩, hd⟩

/-- C6: `SpecialTasks.compute_results` returns `not_applicable` with no
open engagement-labelled task, `satisfied` when one such task is due
strictly in the future, and `due` with `due_in = -1` when such tasks exist
but none has a future due date. -/
theorem special_tasks_three_states (now : Int) (p : Patient) :
    ((¬∃ t ∈ p.tasks, t.status = "OPEN" ∧
        ∃ l ∈ t.labels, l ∈ SpecialTasks.ENGAGEMENT_TRANSITION_TASK_LABELS) →
      (SpecialTasks.compute_results now p).status = STATUS_NOT_APPLICABLE) ∧
    ((∃ t ∈ p.tasks, t.status = "OPEN" ∧
        (∃ l ∈ t.labels, l ∈ SpecialTasks.ENGAGEMENT_TRANSITION_TASK_LABELS) ∧
        now < t.due) →
      (SpecialTasks.compute_results now p).status = STATUS_SATISFIED) ∧
    ((∃ t ∈ p.tasks, t.status = "OPEN" ∧
        ∃ l ∈ t.labels, l ∈ SpecialTasks.ENGAGEMENT_TRANSITION_TASK_LABELS) →
     (∀ t ∈ p.tasks, t.status = "OPEN" →
        (∃ l ∈ t.labels, l ∈ SpecialTasks.ENGAGEMENT_TRANSITION_TASK_LABELS) →
        ¬(now < t.due)) →
      (SpecialTasks.compute_results now p).status = STATUS_DUE ∧
      (SpecialTasks.compute_results now p).due_in = some (-1)) := by
  refine ⟨?_, ?_, ?_⟩
  · intro h
    have hd : ¬(SpecialTasks.in_denominator p = true) := fun hc =>
      h ((special_in_denominator_iff p).mp hc)
    rw [SpecialTasks.compute_results, if_neg hd]
  · intro h
    have hn : SpecialTasks.in_numerator now p = true :=
      (special_in_numerator_iff now p).mpr h
    have hd : SpecialTasks.in_denominator p = true := by
      rcases h with ⟨t, h1, h2, h3, _⟩
      exact (special_in_denominator_iff p).mpr ⟨t, h1, h2, h3⟩
    rw [SpecialTasks.compute_results, if_pos hd, if_pos hn]
  · intro h hall
    have hd := (special_in_denominator_iff p).mpr h
    have hn : ¬(SpecialTasks.in_numerator now p = true) := by
      intro hc
      rcases (special_in_numerator_iff now p).mp hc with ⟨t, h1, h2, h3, h4⟩
      exact hall t h1 h2 h3 h4
    rw [SpecialTasks.compute_results, if_pos hd, if_neg hn]
    exact ⟨rfl, rfl⟩

/-- A nonempty condition search finds a condition carrying a value-set
code. -/
lemma conditions_find_pos (l : List Condition) (vs : List String) :
    0 < (HormoneTherapy.findConditions l vs).length ↔
      ∃ c ∈ l, ∃ code ∈ c.codes, code ∈ vs := by
  rw [List.length_pos_iff_exists_mem]
  constructor
  · rintro ⟨c, hc⟩
    rw [HormoneTherapy.findConditions, List.mem_filter] at hc
    rcases hc with ⟨h1, h2⟩
    simp only [List.any_eq_true, decide_eq_true_eq] at h2
    exact ⟨c, h1, h2⟩
  · rintro ⟨c, h1, h2⟩
    refine ⟨c, ?_⟩
    rw [HormoneTherapy.findConditions, List.mem_filter]
    refine ⟨h1, ?_⟩
    simp only [List.any_eq_true, decide_eq_true_eq]
    exact h2

/-- A nonempty medication search finds a medication carrying a value-set
code. -/
lemma medications_find_pos (l : List Medication) (vs : List String) :
    0 < (HormoneTherapy.findMedications l vs).length ↔
      ∃ m ∈ l, ∃ code ∈ m.codes, code ∈ vs := by
  rw [List.length_pos_iff_exists_mem]
  constructor
  · rintro ⟨m, hm⟩
    rw [HormoneTherapy.findMedications, List.mem_filter] at hm
    rcases hm with ⟨h1, h2⟩
    simp only [List.any_eq_true, decide_eq_true_eq] at h2
    exact ⟨m, h1, h2⟩
  · rintro ⟨m, h1, h2⟩
    refine ⟨m, ?_⟩
    rw [HormoneTherapy.findMedications, List.mem_filter]
    refine ⟨h1, ?_⟩
    simp only [List.any_eq_true, decide_eq_true_eq]
    exact h2

/-- The hysterectomy test of the hormone protocol as an existence
statement. -/
lemma hasHysterectomy_iff (p : Patient) :
    HormoneTherapy.hasHysterectomy p = true ↔
      ∃ c ∈ p.conditions, ∃ code ∈ c.codes, code ∈ HormoneTherapy.Hysterectomy := by
  rw [HormoneTherapy.hasHysterectomy, decide_eq_true_eq]
  exact conditions_find_pos p.conditions HormoneTherapy.Hysterectomy

/-- C7: the hormone-therapy denominator holds iff a postmenopausal-state
diagnosis exists; the numerator is estrogen-without-progestin when a
hysterectomy condition is present and estrogen-with-progestin otherwise;
and `compute_results` attaches a prescription recommendation exactly when
the patient is in the denominator and the numerator fails, setting status
`due` there. -/
theorem hormone_therapy_denominator_numerator_results (p : Patient) :
    (HormoneTherapy.in_denominator p = true ↔
      ∃ c ∈ p.conditions, ∃ code ∈ c.codes, code ∈ HormoneTherapy.PostmenopausalState) ∧
    ((∃ c ∈ p.conditions, ∃ code ∈ c.codes, code ∈ HormoneTherapy.Hysterectomy) →
      (HormoneTherapy.in_numerator p = true ↔
        ((∃ m ∈ p.medications, ∃ code ∈ m.codes, code ∈ HormoneTherapy.EstrogenTherapy) ∧
         ¬∃ m ∈ p.medications, ∃ code ∈ m.codes, code ∈ HormoneTherapy.ProgestinTherapy))) ∧
    ((¬∃ c ∈ p.conditions, ∃ code ∈ c.codes, code ∈ HormoneTherapy.Hysterectomy) →
      (HormoneTherapy.in_numerator p = true ↔
        ((∃ m ∈ p.medications, ∃ code ∈ m.codes, code ∈ HormoneTherapy.EstrogenTherapy) ∧
         ∃ m ∈ p.medications, ∃ code ∈ m.codes, code ∈ HormoneTherapy.ProgestinTherapy))) ∧
    ((HormoneTherapy.compute_results p).recommendations ≠ [] ↔
      (HormoneTherapy.in_denominator p = true ∧ HormoneTherapy.in_numerator p = false)) ∧
    (HormoneTherapy.in_denominator p = true → HormoneTherapy.in_numerator p = false →
      (HormoneTherapy.compute_results p).status = STATUS_DUE) := by
  refine ⟨?_, ?_, ?_, ?_, ?_⟩
  · rw [HormoneTherapy.in_denominator, decide_eq_true_eq]
    exact conditions_find_pos p.conditions HormoneTherapy.PostmenopausalState
  · intro hh
    have hhb : HormoneTherapy.hasHysterectomy p = true := (hasHysterectomy_iff p).mpr hh
    simp only [HormoneTherapy.in_numerator, hhb, if_true, Bool.and_eq_true,
      Bool.not_eq_true', decide_eq_true_eq, decide_eq_false_iff_not]
    rw [medications_find_pos p.medications HormoneTherapy.EstrogenTherapy,
      medications_find_pos p.medications HormoneTherapy.ProgestinTherapy]
  · intro hh
    have hhb : HormoneTherapy.hasHysterectomy p = false := by
      cases hb : HormoneTherapy.hasHysterectomy p
      · rfl
      · exact absurd ((hasHysterectomy_iff p).mp hb) hh
    simp only [HormoneTherapy.in_numerator, hhb, Bool.false_eq_true, if_false,
      Bool.and_eq_true, decide_eq_true_eq]
    rw [medications_find_pos p.medications HormoneTherapy.EstrogenTherapy,
      medications_find_pos p.medications HormoneTherapy.ProgestinTherapy]
  · cases hd : HormoneTherapy.in_denominator p <;>
      cases hh : HormoneTherapy.hasHysterectomy p <;>
        cases hn : HormoneTherapy.in_numerator p <;>
          simp [HormoneTherapy.compute_results, hd, hh, hn]
  · intro hd hn
    cases hh : HormoneTherapy.hasHysterectomy p <;>
      simp [HormoneTherapy.compute_results, hd, hh, hn]

/-- C10: whenever the hormone-therapy patient is outside the denominator,
or inside it with the expected regimen present, `compute_results` returns
the untouched fresh `ProtocolResult` (default status, no urgency, no
narrative, no recommendation); `due` is the only status the protocol ever
assigns. -/
theorem hormone_compute_results_default_or_due (p : Patient) :
    ((HormoneTherapy.in_denominator p = false ∨ HormoneTherapy.in_numerator p = true) →
      HormoneTherapy.compute_results p = ({} : ProtocolResult)) ∧
    ((HormoneTherapy.compute_results p).status = STATUS_UNSET ∨
     (HormoneTherapy.compute_results p).status = STATUS_DUE) := by
  constructor
  · rintro (hd | hn)
    · simp [HormoneTherapy.compute_results, hd]
    · cases hd : HormoneTherapy.in_denominator p <;>
        cases hh : HormoneTherapy.hasHysterectomy p <;>
          simp [HormoneTherapy.compute_results, hd, hh, hn]
  · cases hd : HormoneTherapy.in_denominator p <;>
      cases hh : HormoneTherapy.hasHysterectomy p <;>
        cases hn : HormoneTherapy.in_numerator p <;>
          simp [HormoneTherapy.compute_results, hd, hh, hn]

end Collective
